import Mathlib

/-!
Shallow embedding of the Selector Threshold decision gate (`src/core.py`).

Numbers are modelled as exact rationals (`ℚ`): the Python source only ever
uses short decimal literals (0.35, 0.45, 0.5, 0.6, ...) and the spec reasons
about them as exact decimals.  A Python value that may raise is modelled as
`Except Unit _`; an optional keyword argument as `Option _`.  `datetime.now()`
and `time.time()` are nondeterministic inputs, so the timestamp and the
elapsed-ms measurement enter the embedding as parameters of the gate call.
-/

namespace SelectorThreshold

/-- JSON-like value, modelling the Python objects handed to `json.dumps`.
An object keeps its fields as an ordered association list, because Python
dicts preserve insertion order and the audit-record contract is about a
fixed, stable key order. -/
inductive Jval where
  | jstr (s : String)
  | jnum (q : ℚ)
  | jarr (xs : List Jval)
  | jobj (fields : List (String × Jval))

/-- A gate candidate.  `_is_small_reversible` only inspects whether the
candidate is a string (then its length), a dict (then the length of its
textual rendering `str(candidate)`), or anything else; so a candidate is
embedded as exactly that much structure. -/
inductive Candidate where
  | str (s : String)
  | dict (render : String)
  | other
deriving DecidableEq

/-- A validator predicate `candidate -> bool` that may raise
(`Except.error ()` models a raised exception). -/
abbrev Validator := Candidate → Except Unit Bool

/-- The six extracted signals.  `_calculate_signals` always populates all six
keys of its dict, so a structure is a faithful model of the dict it returns. -/
structure Signals where
  validator_pass_rate : ℚ
  uncertainty_margin : ℚ
  reversibility : ℚ
  consistency_across_modalities : ℚ
  policy_flags : ℚ
  diff_risk : ℚ
deriving DecidableEq

/-- The items of the signals dict, in the insertion order used by
`_calculate_signals` (Python dicts iterate in insertion order). -/
def signalsItems (s : Signals) : List (String × ℚ) :=
  [("validator_pass_rate", s.validator_pass_rate),
   ("uncertainty_margin", s.uncertainty_margin),
   ("reversibility", s.reversibility),
   ("consistency_across_modalities", s.consistency_across_modalities),
   ("policy_flags", s.policy_flags),
   ("diff_risk", s.diff_risk)]

/-- Embedding of `SIGNAL_WEIGHTS` (module-level constant of `core.py`). -/
def SIGNAL_WEIGHTS : List (String × ℚ) :=
  [("validator_pass_rate", 35/100),
   ("uncertainty_margin", 20/100),
   ("reversibility", 15/100),
   ("consistency_across_modalities", 15/100),
   ("policy_flags", -10/100),
   ("diff_risk", -10/100)]

/-- Weight lookup `SIGNAL_WEIGHTS.get(signal_name, 0.0)`. -/
def weightOf (name : String) : ℚ :=
  match SIGNAL_WEIGHTS.lookup name with
  | some w => w
  | none => 0

/-- Embedding of `_compute_sigma`: fold `sigma += weight * value` over the signals dict,
then clamp with `max(0.0, min(1.0, sigma))`. -/
def _compute_sigma (s : Signals) : ℚ :=
  max 0 (min 1 ((signalsItems s).foldl (fun acc p => acc + weightOf p.fst * p.snd) 0))

/-- Embedding of `_is_small_reversible`: strings are small when shorter than 1000
characters, dicts when their rendering `str(candidate)` is; every other
candidate type is treated as small/reversible. -/
def _is_small_reversible : Candidate → Bool
  | Candidate.str s => s.length < 1000
  | Candidate.dict render => render.length < 1000
  | Candidate.other => true

/-- Gate-instance configuration: the threshold τ, the task id, and the three
ablation switches read from the environment at construction. -/
structure GateConfig where
  threshold : ℚ
  task_id : String
  ablate_no_preview : Bool
  ablate_no_validators : Bool
  ablate_no_gate : Bool

/-- The generator sum `sum(1 for v in validators if v(candidate))`: evaluate
the predicates left to right, counting the `true` results; the first raise
aborts the sum. -/
def countPassed (validators : List Validator) (candidate : Candidate) :
    Except Unit Nat :=
  match validators with
  | [] => Except.ok 0
  | v :: vs =>
      match v candidate with
      | Except.error e => Except.error e
      | Except.ok b =>
          match countPassed vs candidate with
          | Except.error e => Except.error e
          | Except.ok n => Except.ok (if b then n + 1 else n)

/-- The `validator_pass_rate` computation of `_calculate_signals`
(core.py lines 123-135). -/
def computeVPR (cfg : GateConfig) (candidate : Candidate)
    (validators : List Validator) (critical_validators : Bool) :
    Except Unit ℚ :=
  if cfg.ablate_no_validators then Except.ok 0
  else if validators.isEmpty then Except.ok (1/2)
  else
    match countPassed validators candidate with
    | Except.error e => Except.error e
    | Except.ok passed =>
        if critical_validators then
          Except.ok (if passed = validators.length then 1 else 0)
        else
          Except.ok ((passed : ℚ) / (validators.length : ℚ))

/-- Embedding of `_calculate_signals` (core.py lines 115-164): the pass rate as above, the
other five signals from the caller override when supplied, else their fixed
default or the small/reversible heuristic. -/
def _calculate_signals (cfg : GateConfig) (candidate : Candidate)
    (validators : List Validator)
    (uncertainty_margin reversibility consistency_across_modalities
      policy_flags diff_risk : Option ℚ)
    (critical_validators : Bool) : Except Unit Signals :=
  match computeVPR cfg candidate validators critical_validators with
  | Except.error e => Except.error e
  | Except.ok vpr =>
      Except.ok
        { validator_pass_rate := vpr
          uncertainty_margin := uncertainty_margin.getD (1/2)
          reversibility :=
            reversibility.getD
              (if _is_small_reversible candidate then 1 else 1/2)
          consistency_across_modalities :=
            consistency_across_modalities.getD 1
          policy_flags := policy_flags.getD 0
          diff_risk :=
            diff_risk.getD
              (if _is_small_reversible candidate then 0 else 3/10) }

/-- The hard-override test of core.py line 93: the `.get` of `policy_flags`
(default 0.0) is at least 1.0 and the `.get` of `reversibility` (default 1.0)
equals 0.0 exactly; the signals dict always carries both keys, so the
defaults never apply. -/
def hardOverride (s : Signals) : Bool :=
  decide (1 ≤ s.policy_flags) && decide (s.reversibility = 0)

/-- The task card held by a gate instance (`goal`, `rules`, `facts`, `plan`;
the `log` trace list is a side channel no audit field reads, so it is not
carried here). -/
structure TaskCard where
  goal : String
  rules : List String
  facts : List (String × Jval)
  plan : List String

/-- Floor of a rational (`Int.fdiv` is floor division). -/
def ratFloor (x : ℚ) : ℤ :=
  Int.fdiv x.num (x.den : ℤ)

/-- Round a rational to the nearest integer, ties to even — the rounding
performed by the Python builtin `round`. -/
def roundHalfEven (x : ℚ) : ℤ :=
  let f := ratFloor x
  let frac := x - (f : ℚ)
  if frac < 1/2 then f
  else if (1/2 : ℚ) < frac then f + 1
  else if f % 2 = 0 then f else f + 1

/-- Python `round(x, ndigits)` on the rational model. -/
def pyRound (x : ℚ) (ndigits : Nat) : ℚ :=
  (roundHalfEven (x * (10 : ℚ) ^ ndigits) : ℚ) / (10 : ℚ) ^ ndigits

/-- Left-pad a digit string with zeros to length `k`. -/
def padZeros (k : Nat) (s : String) : String :=
  String.mk (List.replicate (k - s.length) '0') ++ s

/-- Python `f"{x:.3f}"` on the rational model. -/
def fmt3 (q : ℚ) : String :=
  let m := roundHalfEven (q * 1000)
  let a := m.natAbs
  (if m < 0 then "-" else "") ++ toString (a / 1000) ++ "." ++
    padZeros 3 (toString (a % 1000))

/-- The least `k ≤ 17` with `den ∣ 10 ^ k`, when one exists: the number of
decimal digits needed to write the fraction exactly. -/
def decDigits (den : Nat) : Option Nat :=
  (List.range 18).find? (fun k => 10 ^ k % den = 0)

/-- Python `str(x)` for the float-valued attributes of the gate (used only
inside advisory strings, which no decision inspects): minimal exact decimal
rendering. -/
def pyFloatRepr (q : ℚ) : String :=
  match decDigits q.den with
  | some 0 => toString q.num ++ ".0"
  | some k =>
      let scaled := q.num.natAbs * (10 ^ k / q.den)
      (if q.num < 0 then "-" else "") ++ toString (scaled / 10 ^ k) ++ "." ++
        padZeros k (toString (scaled % 10 ^ k))
  | none => toString q.num ++ "/" ++ toString q.den

/-- Does `pat` occur as a contiguous run somewhere in `l`? -/
def hasSublist (pat : List Char) : List Char → Bool
  | [] => decide (pat = [])
  | c :: rest => pat.isPrefixOf (c :: rest) || hasSublist pat rest

/-- Python `pat in s` for strings. -/
def strContains (s pat : String) : Bool :=
  hasSublist pat.data s.data

/-- Python `s.lower()` (ASCII case folding, which covers every goal string
the lesson generator inspects). -/
def strToLower (s : String) : String :=
  String.mk (s.data.map Char.toLower)

/-- Embedding of `_generate_ask_message` (core.py lines 183-197). -/
def _generate_ask_message (missing_fields : List (String × String)) : String :=
  match missing_fields with
  | [(field, format_hint)] =>
      "I need " ++ field ++ " to proceed safely. Provide " ++ format_hint ++ "."
  | [(f1, h1), (f2, h2)] =>
      "I need " ++ (f1 ++ " (" ++ h1 ++ ")") ++ " and " ++
        (f2 ++ " (" ++ h2 ++ ")") ++ " to proceed safely."
  | _ =>
      "I need " ++ String.intercalate ", " (missing_fields.map Prod.fst) ++
        " to proceed safely."

/-- Lookup `signals.get(name, default)` on the rounded-signals dict of the logger. -/
def getSignal (signals : List (String × ℚ)) (name : String) (default : ℚ) : ℚ :=
  match signals.lookup name with
  | some v => v
  | none => default

/-- Embedding of `_generate_playbook_lesson` (core.py lines 199-240): keyword cascade over
the lower-cased goal.  The `sigma` parameter is kept although the source never
reads it. -/
def _generate_playbook_lesson (cfg : GateConfig) (phase : String) (_sigma : ℚ)
    (signals : List (String × ℚ)) (card : TaskCard) : String :=
  let goal := strToLower card.goal
  if strContains goal "json" || strContains goal "schema" then
    if phase = "ask" then "If date missing, ASK for ISO 8601 before apply."
    else if phase = "refuse" then
      if getSignal signals "validator_pass_rate" 1 < 1 then
        "If required fields missing or invalid format, REFUSE and request correction."
      else "If schema validation fails, REFUSE and request valid JSON."
    else "If all required fields present and valid, APPLY."
  else if strContains goal "medical" || strContains goal "dose" ||
      strContains goal "drug" then
    if phase = "refuse" then
      if getSignal signals "validator_pass_rate" 1 < 1 then
        "If dose > mg/kg×max, REFUSE and propose physician review."
      else "If safety checks fail, REFUSE and suggest safe alternative."
    else "If all safety validators pass, APPLY."
  else if strContains goal "multimodal" || strContains goal "image" ||
      strContains goal "description" then
    if phase = "refuse" then
      if getSignal signals "consistency_across_modalities" 1 < 1 then
        "If objects in image contradict text nouns, REFUSE and request a new caption."
      else "If description contradicts visual content, REFUSE and request accurate description."
    else "If description matches image content, APPLY."
  else
    if phase = "ask" then
      "If sigma in [0.45, 0.6) and 1-2 fields missing, ASK for clarification."
    else if phase = "refuse" then
      "If sigma < threshold (" ++ pyFloatRepr cfg.threshold ++
        "), REFUSE and explain reason."
    else
      "If sigma >= threshold (" ++ pyFloatRepr cfg.threshold ++ "), APPLY."

/-- The `phase` argument of `_log_decision`: the source normalizes a string
by lower-casing it and maps any other (truthy/falsy) value through
`"apply" if phase else "refuse"`. -/
inductive PhaseArg where
  | pstr (s : String)
  | pbool (b : Bool)

/-- Phase normalization in `_log_decision` (core.py lines 249-252). -/
def normalizePhase : PhaseArg → String
  | PhaseArg.pstr s => strToLower s
  | PhaseArg.pbool b => if b then "apply" else "refuse"

/-- The audit record assembled by `_log_decision` (core.py lines 246-276), as
an ordered field list.  `lastSignals` models the getattr of the
`_last_signals` attribute with an empty-dict default: `none` when no signal
computation has stored a dict on the instance (then the rounded-signals dict
is empty). -/
def buildLogEntry (cfg : GateConfig) (card : TaskCard)
    (lastSignals : Option Signals) (timestamp : String) (sigma : ℚ)
    (phase : PhaseArg) (explanation : String) (elapsed_ms : ℚ) :
    List (String × Jval) :=
  let signals_rounded : List (String × ℚ) :=
    match lastSignals with
    | some s => (signalsItems s).map (fun p => (p.fst, pyRound p.snd 3))
    | none => []
  let phase_normalized := normalizePhase phase
  let playbook_lesson :=
    _generate_playbook_lesson cfg phase_normalized sigma signals_rounded card
  [("task_id", Jval.jstr cfg.task_id),
   ("timestamp", Jval.jstr timestamp),
   ("phase", Jval.jstr phase_normalized),
   ("task_card", Jval.jobj
      [("goal", Jval.jstr card.goal),
       ("rules", Jval.jarr (card.rules.map Jval.jstr)),
       ("facts", Jval.jobj card.facts),
       ("plan", Jval.jarr (card.plan.map Jval.jstr))]),
   ("signals", Jval.jobj (signals_rounded.map (fun p => (p.fst, Jval.jnum p.snd)))),
   ("sigma", Jval.jnum (pyRound sigma 3)),
   ("decision", Jval.jstr (if phase_normalized = "apply" then "apply"
                           else phase_normalized)),
   ("explanation", Jval.jstr explanation),
   ("playbook_lesson", Jval.jstr playbook_lesson),
   ("elapsed_ms", Jval.jnum (pyRound elapsed_ms 1))]

/-- A log sink: appending one record may fail (I/O or serialization error,
modelled as `Except.error`). -/
abbrev LogSink := List (String × Jval) → Except String Unit

/-- How `_log_decision` interacts with the sink: the whole body sits in a
`try`/`except Exception: pass`, so whatever the sink does the call returns
unit and never raises. -/
def _log_decision (sink : LogSink) (entry : List (String × Jval)) : Unit :=
  match sink entry with
  | Except.ok _ => ()
  | Except.error _ => ()

/-- The Python return value of `preview_apply_gate`: `(candidate, True)`,
`(None, "ASK")` or `(None, False)`. -/
inductive PyDecision where
  | ptrue
  | pfalse
  | pask
deriving DecidableEq

/-- The outcome of one gate invocation: the returned pair plus the single
audit record the invocation appended (via `_log_decision`) before
returning. -/
structure GateResult where
  result : Option Candidate
  decision : PyDecision
  entry : List (String × Jval)

/-- Embedding of `preview_apply_gate` (core.py lines 56-113), on a fresh gate instance.
`timestamp` and `elapsed_ms` stand for the wall-clock reads.  A raised
validator exception propagates as `Except.error` (the source has no handler
around `v(candidate)`). -/
def preview_apply_gate (cfg : GateConfig) (sink : LogSink) (card : TaskCard)
    (timestamp : String) (elapsed_ms : ℚ)
    (candidate : Candidate) (validators : List Validator)
    (uncertainty_margin reversibility consistency_across_modalities
      policy_flags diff_risk : Option ℚ)
    (missing_fields : Option (List (String × String)))
    (critical_validators : Bool) : Except Unit GateResult :=
  if cfg.ablate_no_gate then
    let entry := buildLogEntry cfg card none timestamp 1
      (PhaseArg.pstr "apply") "Ablation: gate disabled" elapsed_ms
    let _ := _log_decision sink entry
    Except.ok { result := some candidate, decision := PyDecision.ptrue,
                entry := entry }
  else
    match _calculate_signals cfg candidate validators uncertainty_margin
        reversibility consistency_across_modalities policy_flags diff_risk
        critical_validators with
    | Except.error e => Except.error e
    | Except.ok signals =>
        let sigma := _compute_sigma signals
        if hardOverride signals then
          let explanation :=
            "Policy violation with irreversible action. Sigma " ++
              fmt3 sigma ++ "."
          let entry := buildLogEntry cfg card (some signals) timestamp sigma
            (PhaseArg.pstr "refuse") explanation elapsed_ms
          let _ := _log_decision sink entry
          Except.ok { result := none, decision := PyDecision.pfalse,
                      entry := entry }
        else if cfg.threshold ≤ sigma then
          let entry := buildLogEntry cfg card (some signals) timestamp sigma
            (PhaseArg.pstr "apply") "Sigma above threshold" elapsed_ms
          let _ := _log_decision sink entry
          Except.ok { result := some candidate, decision := PyDecision.ptrue,
                      entry := entry }
        else
          let mfList := missing_fields.getD []
          if 45/100 ≤ sigma ∧ sigma < cfg.threshold ∧ mfList ≠ [] ∧
              1 ≤ mfList.length ∧ mfList.length ≤ 2 then
            let ask_msg := _generate_ask_message mfList
            let explanation :=
              "Sigma " ++ fmt3 sigma ++ " in ASK range [0.45, " ++
                pyFloatRepr cfg.threshold ++ "). " ++ ask_msg
            let entry := buildLogEntry cfg card (some signals) timestamp sigma
              (PhaseArg.pstr "ask") explanation elapsed_ms
            let _ := _log_decision sink entry
            Except.ok { result := none, decision := PyDecision.pask,
                        entry := entry }
          else
            let explanation :=
              "Sigma " ++ fmt3 sigma ++ " below threshold " ++
                pyFloatRepr cfg.threshold
            let entry := buildLogEntry cfg card (some signals) timestamp sigma
              (PhaseArg.pstr "refuse") explanation elapsed_ms
            let _ := _log_decision sink entry
            Except.ok { result := none, decision := PyDecision.pfalse,
                        entry := entry }

/-- The audit-record key order of core.py lines 260-276. -/
def auditKeys : List String :=
  ["task_id", "timestamp", "phase", "task_card", "signals", "sigma",
   "decision", "explanation", "playbook_lesson", "elapsed_ms"]

/-- How many validators return `true` on the candidate (without raising). -/
def passedTrueCount (candidate : Candidate) (validators : List Validator) : Nat :=
  validators.countP (fun v => match v candidate with
    | Except.ok true => true
    | _ => false)

/-- A gate instance with the default threshold 0.6 and every ablation off. -/
def cfg0 : GateConfig :=
  { threshold := 3/5, task_id := "task-1", ablate_no_preview := false,
    ablate_no_validators := false, ablate_no_gate := false }

/-- A gate instance with the skip-gate ablation on. -/
def cfgA : GateConfig :=
  { threshold := 3/5, task_id := "task-1", ablate_no_preview := false,
    ablate_no_validators := false, ablate_no_gate := true }

/-- An empty task card (the state of a fresh instance). -/
def card0 : TaskCard :=
  { goal := "", rules := [], facts := [], plan := [] }

/-- A log sink whose appends always succeed. -/
def sinkOk : LogSink := fun _ => Except.ok ()

/-- A log sink whose appends always fail. -/
def sinkFail : LogSink := fun _ => Except.error "disk full"

/-- A validator that accepts every candidate. -/
def vTrue : Validator := fun _ => Except.ok true

/-- A validator that rejects every candidate. -/
def vFalse : Validator := fun _ => Except.ok false

/-- A validator that raises on every candidate. -/
def vRaise : Validator := fun _ => Except.error ()

theorem weightOf_validator_pass_rate : weightOf "validator_pass_rate" = 35/100 := rfl

theorem weightOf_uncertainty_margin : weightOf "uncertainty_margin" = 20/100 := rfl

theorem weightOf_reversibility : weightOf "reversibility" = 15/100 := rfl

theorem weightOf_consistency :
    weightOf "consistency_across_modalities" = 15/100 := rfl

theorem weightOf_policy_flags : weightOf "policy_flags" = -10/100 := rfl

theorem weightOf_diff_risk : weightOf "diff_risk" = -10/100 := rfl

/-- When no validator raises, the generator sum counts exactly the validators
whose predicate returns true. -/
theorem countPassed_ok (candidate : Candidate) :
    ∀ (validators : List Validator),
      (∀ v ∈ validators, v candidate ≠ Except.error ()) →
      countPassed validators candidate
        = Except.ok (passedTrueCount candidate validators)
  | [], _ => by simp [countPassed, passedTrueCount]
  | v :: vs, h => by
      have hv : v candidate ≠ Except.error () := h v (List.mem_cons_self v vs)
      have hrest : ∀ w ∈ vs, w candidate ≠ Except.error () :=
        fun w hw => h w (List.mem_cons_of_mem v hw)
      have ih := countPassed_ok candidate vs hrest
      cases hb : v candidate with
      | error e => cases e; exact absurd hb hv
      | ok b =>
          rw [countPassed, hb, ih]
          cases b <;> simp [passedTrueCount, List.countP_cons, hb]

/-- The shape of the signal set when the pass-rate computation succeeds. -/
theorem calc_signals_ok (cfg : GateConfig) (candidate : Candidate)
    (validators : List Validator) (um rev cons pf dr : Option ℚ) (crit : Bool)
    (vpr : ℚ) (hv : computeVPR cfg candidate validators crit = Except.ok vpr) :
    _calculate_signals cfg candidate validators um rev cons pf dr crit
      = Except.ok
        { validator_pass_rate := vpr
          uncertainty_margin := um.getD (1/2)
          reversibility := rev.getD (if _is_small_reversible candidate then 1 else 1/2)
          consistency_across_modalities := cons.getD 1
          policy_flags := pf.getD 0
          diff_risk := dr.getD (if _is_small_reversible candidate then 0 else 3/10) } := by
  unfold _calculate_signals
  rw [hv]

/-- The audit record always lists its ten fields in the fixed order. -/
theorem buildLogEntry_keys (cfg : GateConfig) (card : TaskCard)
    (ls : Option Signals) (ts : String) (σ : ℚ) (ph : PhaseArg)
    (ex : String) (ems : ℚ) :
    (buildLogEntry cfg card ls ts σ ph ex ems).map Prod.fst = auditKeys := by
  cases ls <;> rfl

/-- The task-card snapshot carries exactly goal, rules, facts and plan. -/
theorem buildLogEntry_task_card (cfg : GateConfig) (card : TaskCard)
    (ls : Option Signals) (ts : String) (σ : ℚ) (ph : PhaseArg)
    (ex : String) (ems : ℚ) :
    (buildLogEntry cfg card ls ts σ ph ex ems).lookup "task_card"
      = some (Jval.jobj
          [("goal", Jval.jstr card.goal),
           ("rules", Jval.jarr (card.rules.map Jval.jstr)),
           ("facts", Jval.jobj card.facts),
           ("plan", Jval.jarr (card.plan.map Jval.jstr))]) := by
  cases ls <;> rfl

/-- With a stored signal dict, the record's signals object is its 3-decimal
rounding, in insertion order. -/
theorem buildLogEntry_signals_some (cfg : GateConfig) (card : TaskCard)
    (s : Signals) (ts : String) (σ : ℚ) (ph : PhaseArg) (ex : String) (ems : ℚ) :
    (buildLogEntry cfg card (some s) ts σ ph ex ems).lookup "signals"
      = some (Jval.jobj ((signalsItems s).map
          (fun q => (q.fst, Jval.jnum (pyRound q.snd 3))))) := rfl

/-- Without a stored signal dict, the record's signals object is empty. -/
theorem buildLogEntry_signals_none (cfg : GateConfig) (card : TaskCard)
    (ts : String) (σ : ℚ) (ph : PhaseArg) (ex : String) (ems : ℚ) :
    (buildLogEntry cfg card none ts σ ph ex ems).lookup "signals"
      = some (Jval.jobj []) := rfl

/-- The phase and decision fields of the record hold the normalized phase. -/
theorem buildLogEntry_phase_decision (cfg : GateConfig) (card : TaskCard)
    (ls : Option Signals) (ts : String) (σ : ℚ) (ph : PhaseArg)
    (ex : String) (ems : ℚ) :
    (buildLogEntry cfg card ls ts σ ph ex ems).lookup "phase"
        = some (Jval.jstr (normalizePhase ph))
      ∧ (buildLogEntry cfg card ls ts σ ph ex ems).lookup "decision"
        = some (Jval.jstr (if normalizePhase ph = "apply" then "apply"
                           else normalizePhase ph)) := by
  cases ls <;> exact ⟨rfl, rfl⟩

/-- Every successful gate invocation logs one `buildLogEntry` record: its
stored signals come from `_calculate_signals` on the non-ablated path and are
absent on the skip-gate path, and its phase argument is one of the three
literals of the source. -/
theorem gate_entry_shape (cfg : GateConfig) (sink : LogSink) (card : TaskCard)
    (ts : String) (ems : ℚ) (candidate : Candidate) (validators : List Validator)
    (um rev cons pf dr : Option ℚ) (mf : Option (List (String × String)))
    (crit : Bool) (r : GateResult)
    (h : preview_apply_gate cfg sink card ts ems candidate validators
        um rev cons pf dr mf crit = Except.ok r) :
    ∃ ls ph ex σ, r.entry = buildLogEntry cfg card ls ts σ ph ex ems
      ∧ (ph = PhaseArg.pstr "apply" ∨ ph = PhaseArg.pstr "ask"
          ∨ ph = PhaseArg.pstr "refuse")
      ∧ (cfg.ablate_no_gate = false →
          ∃ s, _calculate_signals cfg candidate validators um rev cons pf dr crit
              = Except.ok s ∧ ls = some s)
      ∧ (cfg.ablate_no_gate = true → ls = none) := by
  unfold preview_apply_gate at h
  by_cases hg : cfg.ablate_no_gate = true
  · rw [hg] at h
    simp only [if_true] at h
    injection h with h
    refine ⟨none, PhaseArg.pstr "apply", _, _, by rw [← h], Or.inl rfl, ?_, fun _ => rfl⟩
    intro hf; rw [hg] at hf; cases hf
  · rw [Bool.not_eq_true] at hg
    rw [hg] at h
    simp only [Bool.false_eq_true, if_false] at h
    cases hsig : _calculate_signals cfg candidate validators um rev cons pf dr crit with
    | error e => rw [hsig] at h; cases h
    | ok s =>
        rw [hsig] at h
        dsimp only [] at h
        have habs : cfg.ablate_no_gate = true → (some s : Option Signals) = none := by
          intro htg; rw [hg] at htg; cases htg
        by_cases hov : hardOverride s = true
        · rw [if_pos hov] at h
          injection h with h
          exact ⟨some s, PhaseArg.pstr "refuse", _, _, by rw [← h],
            Or.inr (Or.inr rfl), fun _ => ⟨s, rfl, rfl⟩, habs⟩
        · rw [if_neg hov] at h
          by_cases hτ : cfg.threshold ≤ _compute_sigma s
          · rw [if_pos hτ] at h
            injection h with h
            exact ⟨some s, PhaseArg.pstr "apply", _, _, by rw [← h],
              Or.inl rfl, fun _ => ⟨s, rfl, rfl⟩, habs⟩
          · rw [if_neg hτ] at h
            by_cases hask : 45/100 ≤ _compute_sigma s ∧ _compute_sigma s < cfg.threshold ∧
                (mf.getD []) ≠ [] ∧ 1 ≤ (mf.getD []).length ∧ (mf.getD []).length ≤ 2
            · rw [if_pos hask] at h
              injection h with h
              exact ⟨some s, PhaseArg.pstr "ask", _, _, by rw [← h],
                Or.inr (Or.inl rfl), fun _ => ⟨s, rfl, rfl⟩, habs⟩
            · rw [if_neg hask] at h
              injection h with h
              exact ⟨some s, PhaseArg.pstr "refuse", _, _, by rw [← h],
                Or.inr (Or.inr rfl), fun _ => ⟨s, rfl, rfl⟩, habs⟩

/-- C1: with the skip-gate ablation off, whenever the extracted signals have
`policy_flags ≥ 1.0` and `reversibility == 0.0` exactly, the gate refuses
(returns `(None, False)`) regardless of sigma and of every other signal and
argument — the override is checked before the threshold/APPLY and ASK
rules. -/
theorem hard_override_refuses_regardless_of_sigma (cfg : GateConfig)
    (sink : LogSink) (card : TaskCard) (ts : String) (ems : ℚ)
    (candidate : Candidate) (validators : List Validator)
    (um rev cons pf dr : Option ℚ) (mf : Option (List (String × String)))
    (crit : Bool) (s : Signals)
    (hgate : cfg.ablate_no_gate = false)
    (hs : _calculate_signals cfg candidate validators um rev cons pf dr crit
      = Except.ok s)
    (hpf : 1 ≤ s.policy_flags) (hrev : s.reversibility = 0) :
    ∃ r, preview_apply_gate cfg sink card ts ems candidate validators
        um rev cons pf dr mf crit = Except.ok r
      ∧ r.result = none ∧ r.decision = PyDecision.pfalse := by
  have hov : hardOverride s = true := by
    simp [hardOverride, hrev, hpf]
  unfold preview_apply_gate
  rw [hgate, hs]
  simp [hov]

/-- C1 witness: maximal signals (`validator_pass_rate = 1`,
`uncertainty_margin = 1`, sigma = 0.6 = τ, so the APPLY rule would fire) are
still refused when `policy_flags = 1` and `reversibility = 0`. -/
theorem hard_override_refuses_regardless_of_sigma_witness :
    ∃ r, preview_apply_gate cfg0 sinkOk card0 "2025-01-01T00:00:00" 0
        (Candidate.str "x") [vTrue] (some 1) (some 0) (some 1) (some 1) (some 0)
        none false = Except.ok r
      ∧ r.result = none ∧ r.decision = PyDecision.pfalse := by
  have hs : _calculate_signals cfg0 (Candidate.str "x") [vTrue]
      (some 1) (some 0) (some 1) (some 1) (some 0) false
      = Except.ok { validator_pass_rate := 1, uncertainty_margin := 1,
                    reversibility := 0, consistency_across_modalities := 1,
                    policy_flags := 1, diff_risk := 0 } := by
    simp only [_calculate_signals, computeVPR, countPassed]
    norm_num [vTrue, Option.getD, cfg0]
  exact hard_override_refuses_regardless_of_sigma cfg0 sinkOk card0
    "2025-01-01T00:00:00" 0 (Candidate.str "x") [vTrue]
    (some 1) (some 0) (some 1) (some 1) (some 0) none false _ rfl hs
    (by norm_num) rfl

/-- C2: the claim says a raising validator is counted as a failing check and
the gate still returns a decision; the source has no handler around
`v(candidate)` in `_calculate_signals`, so the exception propagates and the
invocation aborts with no decision (evaluated here at a concrete input). -/
theorem raising_validator_aborts_gate :
    preview_apply_gate cfg0 sinkOk card0 "2025-01-01T00:00:00" 0
        (Candidate.str "x") [vRaise] none none none none none none false
      = Except.error () := rfl

/-- C4: with the skip-gate ablation off and the hard override not triggered,
`sigma ≥ τ` yields APPLY with the original candidate unchanged. -/
theorem sigma_at_or_above_threshold_applies_unchanged (cfg : GateConfig)
    (sink : LogSink) (card : TaskCard) (ts : String) (ems : ℚ)
    (candidate : Candidate) (validators : List Validator)
    (um rev cons pf dr : Option ℚ) (mf : Option (List (String × String)))
    (crit : Bool) (s : Signals)
    (hgate : cfg.ablate_no_gate = false)
    (hs : _calculate_signals cfg candidate validators um rev cons pf dr crit
      = Except.ok s)
    (hov : hardOverride s = false)
    (hσ : cfg.threshold ≤ _compute_sigma s) :
    ∃ r, preview_apply_gate cfg sink card ts ems candidate validators
        um rev cons pf dr mf crit = Except.ok r
      ∧ r.result = some candidate ∧ r.decision = PyDecision.ptrue := by
  unfold preview_apply_gate
  rw [hgate, hs]
  simp [hov, hσ]

/-- C4 witness: at the default threshold τ = 0.6, signals summing to sigma
exactly 0.6 (boundary case) yield APPLY with the candidate unchanged. -/
theorem sigma_at_or_above_threshold_applies_unchanged_witness :
    ∃ r, preview_apply_gate cfg0 sinkOk card0 "2025-01-01T00:00:00" 0
        (Candidate.str "x") [] (some (5/8)) (some 1) (some 1) (some 0) (some 0)
        none false = Except.ok r
      ∧ r.result = some (Candidate.str "x") ∧ r.decision = PyDecision.ptrue := by
  have hs : _calculate_signals cfg0 (Candidate.str "x") []
      (some (5/8)) (some 1) (some 1) (some 0) (some 0) false
      = Except.ok { validator_pass_rate := 1/2, uncertainty_margin := 5/8,
                    reversibility := 1, consistency_across_modalities := 1,
                    policy_flags := 0, diff_risk := 0 } := by
    simp only [_calculate_signals, computeVPR]
    norm_num [Option.getD, cfg0]
  refine sigma_at_or_above_threshold_applies_unchanged cfg0 sinkOk card0
    "2025-01-01T00:00:00" 0 (Candidate.str "x") []
    (some (5/8)) (some 1) (some 1) (some 0) (some 0) none false _ rfl hs
    (by norm_num [hardOverride]) ?_
  show cfg0.threshold ≤ _compute_sigma _
  norm_num [cfg0, _compute_sigma, signalsItems, weightOf_validator_pass_rate,
    weightOf_uncertainty_margin, weightOf_reversibility, weightOf_consistency,
    weightOf_policy_flags, weightOf_diff_risk, min_def, max_def]

/-- C7: the decision (and the whole invocation outcome) is the same for any
two log sinks — a sink that always fails cannot change what the caller gets —
and the logging path itself never raises, because `_log_decision` swallows
every sink outcome. -/
theorem decision_unaffected_by_log_sink (cfg : GateConfig)
    (sink1 sink2 : LogSink) (card : TaskCard) (ts : String) (ems : ℚ)
    (candidate : Candidate) (validators : List Validator)
    (um rev cons pf dr : Option ℚ) (mf : Option (List (String × String)))
    (crit : Bool) :
    preview_apply_gate cfg sink1 card ts ems candidate validators
        um rev cons pf dr mf crit
      = preview_apply_gate cfg sink2 card ts ems candidate validators
        um rev cons pf dr mf crit
    ∧ ∀ entry, _log_decision sink1 entry = () :=
  ⟨rfl, fun _ => rfl⟩

/-- C8: with the skip-gate ablation on, the gate returns APPLY with the
candidate and logs a record with sigma = 1.0, regardless of every other
input, including a policy-flag/irreversibility combination that would
otherwise force REFUSE. -/
theorem skip_gate_forces_apply_with_sigma_one (cfg : GateConfig)
    (sink : LogSink) (card : TaskCard) (ts : String) (ems : ℚ)
    (candidate : Candidate) (validators : List Validator)
    (um rev cons pf dr : Option ℚ) (mf : Option (List (String × String)))
    (crit : Bool)
    (hgate : cfg.ablate_no_gate = true) :
    ∃ r, preview_apply_gate cfg sink card ts ems candidate validators
        um rev cons pf dr mf crit = Except.ok r
      ∧ r.result = some candidate ∧ r.decision = PyDecision.ptrue
      ∧ r.entry = buildLogEntry cfg card none ts 1 (PhaseArg.pstr "apply")
          "Ablation: gate disabled" ems
      ∧ r.entry.lookup "sigma" = some (Jval.jnum 1) := by
  unfold preview_apply_gate
  rw [hgate]
  have h1 : pyRound 1 3 = 1 := by
    norm_num [pyRound, roundHalfEven, ratFloor]
  simp [buildLogEntry, List.lookup, h1]

/-- C8 witness: even with `policy_flags = 1` and `reversibility = 0` (the
hard-override combination), the skip-gate ablation forces APPLY with
sigma 1.0. -/
theorem skip_gate_forces_apply_with_sigma_one_witness :
    ∃ r, preview_apply_gate cfgA sinkOk card0 "2025-01-01T00:00:00" 0
        (Candidate.str "x") [vFalse] none (some 0) none (some 1) none
        none false = Except.ok r
      ∧ r.result = some (Candidate.str "x") ∧ r.decision = PyDecision.ptrue
      ∧ r.entry = buildLogEntry cfgA card0 none "2025-01-01T00:00:00" 1
          (PhaseArg.pstr "apply") "Ablation: gate disabled" 0
      ∧ r.entry.lookup "sigma" = some (Jval.jnum 1) :=
  skip_gate_forces_apply_with_sigma_one cfgA sinkOk card0 "2025-01-01T00:00:00"
    0 (Candidate.str "x") [vFalse] none (some 0) none (some 1) none none false
    rfl

/-- C10: when the caller supplies no explicit reversibility override, the
extracted reversibility signal is 1.0 (small candidate) or 0.5 (otherwise),
never 0.0, so the hard-override condition is false and its REFUSE branch is
unreachable. -/
theorem default_reversibility_never_zero (cfg : GateConfig)
    (candidate : Candidate) (validators : List Validator)
    (um cons pf dr : Option ℚ) (crit : Bool) (s : Signals)
    (hs : _calculate_signals cfg candidate validators um none cons pf dr crit
      = Except.ok s) :
    (s.reversibility = 1 ∨ s.reversibility = 1/2)
    ∧ hardOverride s = false := by
  unfold _calculate_signals at hs
  cases hv : computeVPR cfg candidate validators crit with
  | error e => rw [hv] at hs; cases hs
  | ok vpr =>
      rw [hv] at hs
      injection hs with hs
      subst hs
      constructor
      · by_cases hsm : _is_small_reversible candidate <;>
          simp [hsm, Option.getD]
      · by_cases hsm : _is_small_reversible candidate <;>
          simp [hardOverride, hsm, Option.getD]

/-- C10 witness: a small string candidate with `policy_flags = 1` but no
reversibility override gets reversibility 1.0 and does not trip the
override. -/
theorem default_reversibility_never_zero_witness :
    ∃ s, _calculate_signals cfg0 (Candidate.str "x") [] none none none
        (some 1) none false = Except.ok s
      ∧ (s.reversibility = 1 ∨ s.reversibility = 1/2)
      ∧ hardOverride s = false := by
  have hs : _calculate_signals cfg0 (Candidate.str "x") [] none none none
      (some 1) none false
      = Except.ok { validator_pass_rate := 1/2, uncertainty_margin := 1/2,
                    reversibility := 1, consistency_across_modalities := 1,
                    policy_flags := 1, diff_risk := 0 } := by
    simp only [_calculate_signals, computeVPR]
    norm_num [Option.getD, cfg0, _is_small_reversible]
    decide
  exact ⟨_, hs, default_reversibility_never_zero cfg0 (Candidate.str "x") []
    none none (some 1) none false _ hs⟩

/-- C3: with the skip-gate ablation off and the hard override not triggered,
the decision is ASK exactly when `0.45 ≤ sigma < τ` and the caller supplied a
missing-fields list of length 1 or 2; an ASK returns no candidate value; and
a below-threshold sigma that does not qualify for ASK (for example 0.50 with
3 missing fields) is refused. -/
theorem ask_iff_sigma_band_and_one_or_two_missing_fields (cfg : GateConfig)
    (sink : LogSink) (card : TaskCard) (ts : String) (ems : ℚ)
    (candidate : Candidate) (validators : List Validator)
    (um rev cons pf dr : Option ℚ) (mf : Option (List (String × String)))
    (crit : Bool) (s : Signals)
    (hgate : cfg.ablate_no_gate = false)
    (hs : _calculate_signals cfg candidate validators um rev cons pf dr crit
      = Except.ok s)
    (hov : hardOverride s = false) :
    ∃ r, preview_apply_gate cfg sink card ts ems candidate validators
        um rev cons pf dr mf crit = Except.ok r
      ∧ (r.decision = PyDecision.pask ↔
          (45/100 ≤ _compute_sigma s ∧ _compute_sigma s < cfg.threshold ∧
            ∃ l, mf = some l ∧ 1 ≤ l.length ∧ l.length ≤ 2))
      ∧ (r.decision = PyDecision.pask → r.result = none)
      ∧ (_compute_sigma s < cfg.threshold → r.decision ≠ PyDecision.pask →
          r.decision = PyDecision.pfalse) := by
  unfold preview_apply_gate
  rw [hgate, hs]
  simp only [Bool.false_eq_true, if_false, hov]
  by_cases hτ : cfg.threshold ≤ _compute_sigma s
  · simp only [if_pos hτ]
    refine ⟨_, rfl, ?_, ?_, ?_⟩
    · constructor
      · intro h; cases h
      · rintro ⟨-, hlt, -⟩; exact absurd hτ (not_le.mpr hlt)
    · intro h; cases h
    · intro hlt _; exact absurd hτ (not_le.mpr hlt)
  · by_cases hask : 45/100 ≤ _compute_sigma s ∧ _compute_sigma s < cfg.threshold ∧
        (mf.getD []) ≠ [] ∧ 1 ≤ (mf.getD []).length ∧ (mf.getD []).length ≤ 2
    · simp only [if_neg hτ, if_pos hask]
      refine ⟨_, rfl, ?_, fun _ => rfl, ?_⟩
      · obtain ⟨ha, hb, hc, hd, he⟩ := hask
        constructor
        · intro _
          refine ⟨ha, hb, ?_⟩
          cases mf with
          | none => simp at hc
          | some l => exact ⟨l, rfl, hd, he⟩
        · intro _; rfl
      · intro _ hne; exact absurd rfl hne
    · simp only [if_neg hτ, if_neg hask]
      refine ⟨_, rfl, ?_, ?_, fun _ _ => rfl⟩
      · constructor
        · intro h; cases h
        · rintro ⟨ha, hb, l, hl, hd, he⟩
          exfalso
          apply hask
          subst hl
          refine ⟨ha, hb, ?_, hd, he⟩
          intro hnil
          simp only [Option.getD] at hnil
          rw [hnil] at hd
          simp at hd
      · intro h; cases h

/-- C3 witness: a candidate whose default signals give sigma = 0.575 (inside
the ASK band for τ = 0.6) with one missing-field descriptor yields ASK and no
candidate value. -/
theorem ask_iff_sigma_band_and_one_or_two_missing_fields_witness :
    ∃ r, preview_apply_gate cfg0 sinkOk card0 "2025-01-01T00:00:00" 0
        (Candidate.str "x") [] none none none none none
        (some [("plan", "string format")]) false = Except.ok r
      ∧ r.decision = PyDecision.pask ∧ r.result = none := by
  have hs : _calculate_signals cfg0 (Candidate.str "x") [] none none none
      none none false
      = Except.ok { validator_pass_rate := 1/2, uncertainty_margin := 1/2,
                    reversibility := 1, consistency_across_modalities := 1,
                    policy_flags := 0, diff_risk := 0 } := by
    simp only [_calculate_signals, computeVPR]
    norm_num [Option.getD, cfg0, _is_small_reversible]
    decide
  have hσ : _compute_sigma
      { validator_pass_rate := 1/2, uncertainty_margin := 1/2,
        reversibility := 1, consistency_across_modalities := 1,
        policy_flags := 0, diff_risk := 0 } = 23/40 := by
    norm_num [_compute_sigma, signalsItems, weightOf_validator_pass_rate,
      weightOf_uncertainty_margin, weightOf_reversibility, weightOf_consistency,
      weightOf_policy_flags, weightOf_diff_risk, min_def, max_def]
  obtain ⟨r, hr, hiff, himp, -⟩ :=
    ask_iff_sigma_band_and_one_or_two_missing_fields cfg0 sinkOk card0
      "2025-01-01T00:00:00" 0 (Candidate.str "x") [] none none none none none
      (some [("plan", "string format")]) false _ rfl hs
      (by norm_num [hardOverride])
  have hd : r.decision = PyDecision.pask := by
    apply hiff.mpr
    refine ⟨by rw [hσ]; norm_num, by rw [hσ]; norm_num [cfg0],
      ⟨[("plan", "string format")], rfl, by norm_num, by norm_num⟩⟩
  exact ⟨r, hr, hd, himp hd⟩

/-- C5: on a complete signal set with all six values in [0,1], sigma is the
fixed-weight dot product clamped to [0,1], and hence always lies in [0,1]. -/
theorem sigma_is_clamped_weighted_dot_product (s : Signals)
    (_h1 : 0 ≤ s.validator_pass_rate ∧ s.validator_pass_rate ≤ 1)
    (_h2 : 0 ≤ s.uncertainty_margin ∧ s.uncertainty_margin ≤ 1)
    (_h3 : 0 ≤ s.reversibility ∧ s.reversibility ≤ 1)
    (_h4 : 0 ≤ s.consistency_across_modalities ∧ s.consistency_across_modalities ≤ 1)
    (_h5 : 0 ≤ s.policy_flags ∧ s.policy_flags ≤ 1)
    (_h6 : 0 ≤ s.diff_risk ∧ s.diff_risk ≤ 1) :
    _compute_sigma s =
      max 0 (min 1 (35/100 * s.validator_pass_rate
        + 20/100 * s.uncertainty_margin
        + 15/100 * s.reversibility
        + 15/100 * s.consistency_across_modalities
        - 10/100 * s.policy_flags - 10/100 * s.diff_risk))
    ∧ 0 ≤ _compute_sigma s ∧ _compute_sigma s ≤ 1 := by
  refine ⟨?_, le_max_left 0 _, max_le (by norm_num) (min_le_left 1 _)⟩
  unfold _compute_sigma signalsItems
  simp only [List.foldl_cons, List.foldl_nil, weightOf_validator_pass_rate,
    weightOf_uncertainty_margin, weightOf_reversibility, weightOf_consistency,
    weightOf_policy_flags, weightOf_diff_risk]
  ring_nf

/-- C5 witness: the all-0.5 signal set satisfies the bounds, its sigma equals
the clamped dot product, and it lies in [0,1]. -/
theorem sigma_is_clamped_weighted_dot_product_witness :
    _compute_sigma
        { validator_pass_rate := 1/2, uncertainty_margin := 1/2,
          reversibility := 1/2, consistency_across_modalities := 1/2,
          policy_flags := 1/2, diff_risk := 1/2 } =
      max 0 (min 1 (35/100 * (1/2) + 20/100 * (1/2) + 15/100 * (1/2)
        + 15/100 * (1/2) - 10/100 * (1/2) - 10/100 * (1/2)))
    ∧ 0 ≤ _compute_sigma
        { validator_pass_rate := 1/2, uncertainty_margin := 1/2,
          reversibility := 1/2, consistency_across_modalities := 1/2,
          policy_flags := 1/2, diff_risk := 1/2 }
    ∧ _compute_sigma
        { validator_pass_rate := 1/2, uncertainty_margin := 1/2,
          reversibility := 1/2, consistency_across_modalities := 1/2,
          policy_flags := 1/2, diff_risk := 1/2 } ≤ 1 :=
  sigma_is_clamped_weighted_dot_product
    { validator_pass_rate := 1/2, uncertainty_margin := 1/2,
      reversibility := 1/2, consistency_across_modalities := 1/2,
      policy_flags := 1/2, diff_risk := 1/2 }
    (by norm_num) (by norm_num) (by norm_num) (by norm_num) (by norm_num)
    (by norm_num)

/-- C6: validator_pass_rate is 0.0 under the skip-validators ablation; 0.5
when no validators are supplied; the exact passing fraction for non-critical
validators; and all-or-nothing (1.0 or 0.0) for critical validators — in the
last two cases provided no validator raises. -/
theorem validator_pass_rate_specification (cfg : GateConfig)
    (candidate : Candidate) (validators : List Validator)
    (um rev cons pf dr : Option ℚ) (crit : Bool) :
    (cfg.ablate_no_validators = true →
      ∃ s, _calculate_signals cfg candidate validators um rev cons pf dr crit
          = Except.ok s ∧ s.validator_pass_rate = 0)
    ∧ (cfg.ablate_no_validators = false → validators = [] →
      ∃ s, _calculate_signals cfg candidate validators um rev cons pf dr crit
          = Except.ok s ∧ s.validator_pass_rate = 1/2)
    ∧ (cfg.ablate_no_validators = false → validators ≠ [] →
        (∀ v ∈ validators, v candidate ≠ Except.error ()) → crit = false →
      ∃ s, _calculate_signals cfg candidate validators um rev cons pf dr crit
          = Except.ok s ∧ s.validator_pass_rate
            = (passedTrueCount candidate validators : ℚ) / (validators.length : ℚ))
    ∧ (cfg.ablate_no_validators = false → validators ≠ [] →
        (∀ v ∈ validators, v candidate ≠ Except.error ()) → crit = true →
      ∃ s, _calculate_signals cfg candidate validators um rev cons pf dr crit
          = Except.ok s ∧ s.validator_pass_rate
            = (if passedTrueCount candidate validators = validators.length
               then (1:ℚ) else 0)) := by
  refine ⟨?_, ?_, ?_, ?_⟩
  · intro hab
    have hv : computeVPR cfg candidate validators crit = Except.ok 0 := by
      unfold computeVPR; rw [hab]; simp
    exact ⟨_, calc_signals_ok cfg candidate validators um rev cons pf dr crit 0 hv,
      rfl⟩
  · intro hab hnil
    have hv : computeVPR cfg candidate validators crit = Except.ok (1/2) := by
      unfold computeVPR; rw [hab, hnil]; simp
    exact ⟨_, calc_signals_ok cfg candidate validators um rev cons pf dr crit _ hv,
      rfl⟩
  · intro hab hnil hall hcrit
    have hv : computeVPR cfg candidate validators crit
        = Except.ok ((passedTrueCount candidate validators : ℚ)
            / (validators.length : ℚ)) := by
      unfold computeVPR
      rw [hab, hcrit, countPassed_ok candidate validators hall]
      simp [List.isEmpty_iff, hnil]
    exact ⟨_, calc_signals_ok cfg candidate validators um rev cons pf dr crit _ hv,
      rfl⟩
  · intro hab hnil hall hcrit
    have hv : computeVPR cfg candidate validators crit
        = Except.ok (if passedTrueCount candidate validators = validators.length
            then (1:ℚ) else 0) := by
      unfold computeVPR
      rw [hab, hcrit, countPassed_ok candidate validators hall]
      simp [List.isEmpty_iff, hnil]
    exact ⟨_, calc_signals_ok cfg candidate validators um rev cons pf dr crit _ hv,
      rfl⟩

/-- C6 witness: three critical validators of which two pass give
validator_pass_rate 0.0, not 0.667. -/
theorem validator_pass_rate_specification_witness :
    ∃ s, _calculate_signals cfg0 (Candidate.str "x") [vTrue, vTrue, vFalse]
        none none none none none true = Except.ok s
      ∧ s.validator_pass_rate = 0 := by
  have hall : ∀ v ∈ [vTrue, vTrue, vFalse],
      v (Candidate.str "x") ≠ Except.error () := by
    intro v hv
    simp only [List.mem_cons, List.not_mem_nil, or_false] at hv
    rcases hv with h | h | h <;> subst h <;> simp [vTrue, vFalse]
  obtain ⟨s, hs, hr⟩ :=
    (validator_pass_rate_specification cfg0 (Candidate.str "x")
      [vTrue, vTrue, vFalse] none none none none none true).2.2.2
      rfl (by simp) hall rfl
  refine ⟨s, hs, ?_⟩
  rw [hr]
  have hcount : passedTrueCount (Candidate.str "x") [vTrue, vTrue, vFalse] = 2 := rfl
  rw [hcount]
  norm_num

/-- C9 counterexample: a concrete audit record (here from a skip-gate
invocation on a fresh instance) lists the field `playbook_lesson`, not
`advisory_note`, and its signals object is empty rather than six-keyed — so
the claim's field list is wrong on the code. -/
theorem audit_record_advisory_note_counterexample :
    ∃ r, preview_apply_gate cfgA sinkOk card0 "2025-01-01T00:00:00" 0
        (Candidate.str "x") [] none none none none none none false
      = Except.ok r
      ∧ r.entry.map Prod.fst = auditKeys
      ∧ r.entry.lookup "advisory_note" = none
      ∧ r.entry.lookup "signals" = some (Jval.jobj []) :=
  ⟨_, rfl, rfl, rfl, rfl⟩

/-- C9 (amended): every audit record lists exactly the ten fields task_id,
timestamp, phase, task_card (with goal, rules, facts, plan), signals, sigma,
decision, explanation, playbook_lesson (not advisory_note), elapsed_ms, in
that fixed order; phase and decision coincide and lie in the apply/ask/refuse
enum; the signals object holds the six extracted signals rounded to 3
decimals on the non-ablated path, and is empty when the skip-gate ablation
logs on a fresh instance. -/
theorem audit_record_fixed_field_order (cfg : GateConfig) (sink : LogSink)
    (card : TaskCard) (ts : String) (ems : ℚ) (candidate : Candidate)
    (validators : List Validator) (um rev cons pf dr : Option ℚ)
    (mf : Option (List (String × String))) (crit : Bool) (r : GateResult)
    (h : preview_apply_gate cfg sink card ts ems candidate validators
        um rev cons pf dr mf crit = Except.ok r) :
    r.entry.map Prod.fst = auditKeys
    ∧ r.entry.lookup "task_card"
        = some (Jval.jobj
            [("goal", Jval.jstr card.goal),
             ("rules", Jval.jarr (card.rules.map Jval.jstr)),
             ("facts", Jval.jobj card.facts),
             ("plan", Jval.jarr (card.plan.map Jval.jstr))])
    ∧ (∃ p, r.entry.lookup "phase" = some (Jval.jstr p)
        ∧ (p = "apply" ∨ p = "ask" ∨ p = "refuse")
        ∧ r.entry.lookup "decision" = some (Jval.jstr p))
    ∧ (cfg.ablate_no_gate = false →
        ∃ s, _calculate_signals cfg candidate validators um rev cons pf dr crit
            = Except.ok s
          ∧ r.entry.lookup "signals"
            = some (Jval.jobj ((signalsItems s).map
                (fun q => (q.fst, Jval.jnum (pyRound q.snd 3))))))
    ∧ (cfg.ablate_no_gate = true →
        r.entry.lookup "signals" = some (Jval.jobj [])) := by
  obtain ⟨ls, ph, ex, σ, he, hph, hsome, hnone⟩ :=
    gate_entry_shape cfg sink card ts ems candidate validators
      um rev cons pf dr mf crit r h
  rw [he]
  refine ⟨buildLogEntry_keys cfg card ls ts σ ph ex ems,
    buildLogEntry_task_card cfg card ls ts σ ph ex ems, ?_, ?_, ?_⟩
  · rcases hph with hp | hp | hp <;> subst hp
    · exact ⟨"apply", (buildLogEntry_phase_decision cfg card ls ts σ _ ex ems).1,
        Or.inl rfl, (buildLogEntry_phase_decision cfg card ls ts σ _ ex ems).2⟩
    · exact ⟨"ask", (buildLogEntry_phase_decision cfg card ls ts σ _ ex ems).1,
        Or.inr (Or.inl rfl), (buildLogEntry_phase_decision cfg card ls ts σ _ ex ems).2⟩
    · exact ⟨"refuse", (buildLogEntry_phase_decision cfg card ls ts σ _ ex ems).1,
        Or.inr (Or.inr rfl), (buildLogEntry_phase_decision cfg card ls ts σ _ ex ems).2⟩
  · intro hfg
    obtain ⟨s, hcalc, hls⟩ := hsome hfg
    subst hls
    exact ⟨s, hcalc, buildLogEntry_signals_some cfg card s ts σ ph ex ems⟩
  · intro htg
    rw [hnone htg]
    exact buildLogEntry_signals_none cfg card ts σ ph ex ems

/-- C9 (amended) witness: a concrete skip-gate invocation, checked against
the amended field-order statement. -/
theorem audit_record_fixed_field_order_witness :
    ∃ r, preview_apply_gate cfgA sinkFail card0 "2025-01-01T00:00:00" 0
        (Candidate.str "x") [] none none none none none none false
      = Except.ok r
      ∧ r.entry.map Prod.fst = auditKeys
      ∧ r.entry.lookup "signals" = some (Jval.jobj []) := by
  refine ⟨_, rfl, ?_, ?_⟩
  · exact (audit_record_fixed_field_order cfgA sinkFail card0
      "2025-01-01T00:00:00" 0 (Candidate.str "x") [] none none none none none
      none false _ rfl).1
  · exact (audit_record_fixed_field_order cfgA sinkFail card0
      "2025-01-01T00:00:00" 0 (Candidate.str "x") [] none none none none none
      none false _ rfl).2.2.2.2 rfl

end SelectorThreshold
